import Mathlib

/-!
Verification of the horoscope cache service (`astro_api.py`, with the
standalone variant `update_astro_data.py`).

Shallow embedding conventions:

* the in-memory module-level `cache` dict becomes an association list of
  `(key, entry)` pairs threaded explicitly through every operation;
* `datetime.now().strftime("%Y-%m-%d")` and `datetime.now().isoformat()`
  become explicit `today` / `ts` string parameters;
* one upstream HTTP round trip becomes an `Option Page` parameter: `none`
  models a `requests` exception or the non-2xx status raised by
  `raise_for_status`, `some page` a body parsed by the markup library;
* a Python exception escaping a function becomes `Except.error ()`
  returned together with the (unchanged) cache;
* `save_cache()` is abstracted to a counter of file writes / a `saved`
  flag, since its file-system effect is outside the model.
-/

/-- Entry stored in the cache for one sign, as built by `fetch_astro_data`
(astro_api.py lines 91-97).  `date` and `items` are `Option`s because the
code explicitly tests the presence of the `'date'` and `'items'` keys on
entries loaded from disk (lines 71 and 147); `title`, `html` and
`timestamp` are read unconditionally wherever they are used. -/
structure CacheEntry where
  title : String
  items : Option (List String)
  html : String
  date : Option String
  timestamp : String
  deriving DecidableEq, Inhabited

/-- Parsed upstream page: the text of the `div.TODAY_CONTENT > h3` nodes
and of the `div.TODAY_CONTENT > p` nodes.  `soup.select(...)[0]` applied
to an empty heading selection is the `IndexError` parse failure. -/
structure Page where
  headings : List String
  paragraphs : List String
  deriving DecidableEq, Inhabited

/-- The in-memory cache: a Python dict from `str(num)` keys to entries. -/
abbrev Cache := List (String × CacheEntry)

/-- Dictionary lookup `cache[k]` (also backing the `k in cache` test). -/
def cacheFind : Cache → String → Option CacheEntry
  | [], _ => none
  | (k, v) :: rest, key => if k = key then some v else cacheFind rest key

/-- Dictionary membership test `str(num) in cache`. -/
def containsKey (c : Cache) (k : String) : Bool :=
  (cacheFind c k).isSome

/-- Dictionary update `cache[k] = v`: replace in place, append if absent. -/
def cacheInsert : Cache → String → CacheEntry → Cache
  | [], key, v => [(key, v)]
  | (k, w) :: rest, key, v =>
      if k = key then (key, v) :: rest else (k, w) :: cacheInsert rest key v

/-- `is_cache_valid` (astro_api.py lines 67-72): an entry for `str(num)`
exists, has a `'date'` key, and that date equals today. -/
def is_cache_valid (cache : Cache) (today : String) (num : Nat) : Bool :=
  match cacheFind cache (toString num) with
  | none => false
  | some e =>
      match e.date with
      | none => false
      | some d => d == today

/-- Python `sep.join(xs)`. -/
def strJoin (sep : String) : List String → String
  | [] => ""
  | [x] => x
  | x :: y :: rest => x ++ sep ++ strJoin sep (y :: rest)

/-- The `"html"` field built on a successful fetch (astro_api.py line 94):
`astro.text + "<br>" + "<br>".join([item.text + "<br>" for item in items])`. -/
def buildHtml (title : String) (items : List String) : String :=
  title ++ "<br>" ++ strJoin "<br>" (items.map (fun s => s ++ "<br>"))

/-- The dict stored into the cache by a successful fetch
(astro_api.py lines 91-97). -/
def mkEntry (title : String) (items : List String) (today ts : String) : CacheEntry :=
  ⟨title, some items, buildHtml title items, some today, ts⟩

/-- `fetch_astro_data` (astro_api.py lines 74-104).  The shortcut branch
returns the cached dict when the cache is valid and `force_update` is not
set; otherwise the upstream page is fetched and parsed, the entry is
written into the cache, and the entry is returned.  Any failure (network,
HTTP status, missing `h3` node) raises, leaving the cache untouched. -/
def fetch_astro_data (cache : Cache) (today ts : String) (num : Nat) (force : Bool)
    (upstream : Option Page) : Except Unit CacheEntry × Cache :=
  if !force && is_cache_valid cache today num then
    match cacheFind cache (toString num) with
    | some e => (Except.ok e, cache)
    | none => (Except.error (), cache)  -- unreachable: validity implies presence
  else
    match upstream with
    | none => (Except.error (), cache)
    | some page =>
        match page.headings with
        | [] => (Except.error (), cache)
        | h :: _ =>
            (Except.ok (mkEntry h page.paragraphs today ts),
             cacheInsert cache (toString num) (mkEntry h page.paragraphs today ts))

/-- `needs_update` (astro_api.py lines 130-158).  `probe` is the outcome of
the comparison fetch-and-parse: `none` models any exception in the `try`
block (caught, returning `True`), `some current` the freshly parsed item
texts.  The function returns its answer together with the cache it leaves
behind. -/
def needs_update (cache : Cache) (today : String) (num : Nat)
    (probe : Option (List String)) : Bool × Cache :=
  if !containsKey cache (toString num) || !is_cache_valid cache today num then
    (true, cache)
  else
    match probe with
    | none => (true, cache)
    | some current =>
        match cacheFind cache (toString num) with
        | none => (false, cache)
        | some e =>
            match e.items with
            | none => (false, cache)
            | some cachedItems =>
                if cachedItems ≠ current then (true, cache) else (false, cache)

/-- `convert_to_simplified` (astro_api.py lines 40-44): applies the OpenCC
converter when available, returns the text unchanged otherwise.  The
availability of OpenCC and of the `t2s_converter` object is collapsed into
the single flag `opencc`; the converter itself is an abstract function. -/
def convert_to_simplified (opencc : Bool) (conv : String → String) (text : String) : String :=
  if opencc then conv text else text

/-- The convert-flag test (astro_api.py lines 199 and 240):
`request.args.get('convert', '').lower() in ['1', 'true', 'yes', 'y']`. -/
def isTruthy (s : String) : Bool :=
  ["1", "true", "yes", "y"].contains s.toLower

/-- The final conversion step of the HTML endpoint (astro_api.py 221-225):
convert only when requested and only when OpenCC is available. -/
def applyConvert (opencc : Bool) (conv : String → String) (flag : Bool)
    (text : String) : String :=
  if flag then
    if opencc then convert_to_simplified opencc conv text else text
  else text

/-- Read of `cache[str(num)]["html"]`; the `""` default is unreachable
because every such read in the source is guarded by a validity or
membership check. -/
def cachedHtml (cache : Cache) (key : String) : String :=
  match cacheFind cache key with
  | some e => e.html
  | none => ""

/-- Read of `cache[str(num)]` under a guard that guarantees presence. -/
def cachedEntry (cache : Cache) (key : String) : CacheEntry :=
  (cacheFind cache key).getD default

/-- Response of the HTML endpoint: a body, or an `abort(code)`. -/
inductive Response where
  | ok (body : String)
  | err (code : Nat)
  deriving DecidableEq

/-- Outcome of one HTML-endpoint call: the response, the cache left
behind, whether `save_cache()` ran, and whether an upstream request was
attempted. -/
structure HtmlResult where
  resp : Response
  cache : Cache
  saved : Bool
  fetched : Bool
  deriving DecidableEq

/-- JSON payload of the `/api/astro/<num>` endpoint. -/
structure JsonBody where
  title : String
  items : List String
  date : String
  simplified : Bool
  deriving DecidableEq

/-- Response of the JSON endpoint: a payload, or an error status. -/
inductive JsonResp where
  | ok (body : JsonBody)
  | err (code : Nat)
  deriving DecidableEq

/-- Outcome of one JSON-endpoint call. -/
structure JsonResult where
  resp : JsonResp
  cache : Cache
  saved : Bool
  fetched : Bool
  deriving DecidableEq

/-- Construction of the JSON payload (astro_api.py lines 260-277).
Reading a missing `'items'` or `'date'` key raises `KeyError`, which the
enclosing handler turns into a 500 response (lines 279-281). -/
def buildJson (opencc : Bool) (conv : String → String) (flag : Bool)
    (e : CacheEntry) : JsonResp :=
  match e.items, e.date with
  | some its, some d =>
      if flag && opencc then
        JsonResp.ok ⟨convert_to_simplified opencc conv e.title,
          its.map (convert_to_simplified opencc conv), d, true⟩
      else
        JsonResp.ok ⟨e.title, its, d, false⟩
  | _, _ => JsonResp.err 500

/-- `astro_api` (astro_api.py lines 187-227).  `numParam` is `some n` when
`int(request.values['num'])` succeeds and `none` on a missing or
non-integer parameter (`KeyError` / `ValueError`, both aborted 400). -/
def astro_api (opencc : Bool) (conv : String → String) (cache : Cache)
    (today ts : String) (numParam : Option Int) (convertParam : String)
    (upstream : Option Page) : HtmlResult :=
  match numParam with
  | none => ⟨Response.err 400, cache, false, false⟩
  | some num =>
      if num > 11 ∨ num < 0 then ⟨Response.err 400, cache, false, false⟩
      else
        if is_cache_valid cache today num.toNat then
          ⟨Response.ok (applyConvert opencc conv (isTruthy convertParam)
              (cachedHtml cache (toString num.toNat))), cache, false, false⟩
        else
          match fetch_astro_data cache today ts num.toNat false upstream with
          | (Except.ok data, cache2) =>
              ⟨Response.ok (applyConvert opencc conv (isTruthy convertParam) data.html),
                cache2, true, true⟩
          | (Except.error _, cache2) =>
              if containsKey cache2 (toString num.toNat) then
                ⟨Response.ok (applyConvert opencc conv (isTruthy convertParam)
                    (cachedHtml cache2 (toString num.toNat))), cache2, false, true⟩
              else ⟨Response.err 500, cache2, false, true⟩

/-- `astro_json_api` (astro_api.py lines 232-281).  The sign number arrives
as an integer path segment. -/
def astro_json_api (opencc : Bool) (conv : String → String) (cache : Cache)
    (today ts : String) (num : Int) (convertParam : String)
    (upstream : Option Page) : JsonResult :=
  if num < 0 ∨ 11 < num then ⟨JsonResp.err 400, cache, false, false⟩
  else
    if is_cache_valid cache today num.toNat then
      ⟨buildJson opencc conv (isTruthy convertParam)
          (cachedEntry cache (toString num.toNat)), cache, false, false⟩
    else
      match fetch_astro_data cache today ts num.toNat false upstream with
      | (Except.ok data, cache2) =>
          ⟨buildJson opencc conv (isTruthy convertParam) data, cache2, true, true⟩
      | (Except.error _, cache2) =>
          match cacheFind cache2 (toString num.toNat) with
          | some e => ⟨buildJson opencc conv (isTruthy convertParam) e, cache2, false, true⟩
          | none => ⟨JsonResp.err 500, cache2, false, true⟩

/-- Environment of one sign during a bulk refresh: the outcomes of its two
upstream round trips (`needs_update`'s comparison fetch, then the forced
fetch of `fetch_astro_data`). -/
structure SignEnv where
  probe : Option (List String)
  fetch : Option Page

/-- One iteration of the `fetch_all_astro_data` loop body (astro_api.py
lines 111-121): check `needs_update`; if it answers true, do a forced
fetch and set the `updated` flag.  An error raised by the fetch is caught
by the `except` clause, leaving the cache unchanged (the fetch is atomic
on failure) and the flag unset. -/
def refreshSign (c : Cache) (today ts : String) (e : SignEnv) (n : Nat) : Cache × Bool :=
  if (needs_update c today n e.probe).1 then
    match fetch_astro_data c today ts n true e.fetch with
    | (Except.ok _, c2) => (c2, true)
    | (Except.error _, c2) => (c2, false)
  else (c, false)

/-- The loop of `fetch_all_astro_data` over a list of sign indices:
returns the final cache and each sign's `updated` contribution. -/
def runSigns (today ts : String) (env : Nat → SignEnv) : Cache → List Nat → Cache × List Bool
  | c, [] => (c, [])
  | c, n :: rest =>
      let r := refreshSign c today ts (env n) n
      let r2 := runSigns today ts env r.1 rest
      (r2.1, r.2 :: r2.2)

/-- Result of one bulk refresh: final cache, per-sign update flags, and a
counter of file writes performed by `save_cache()`. -/
structure RefreshResult where
  cache : Cache
  flags : List Bool
  fileWrites : Nat

/-- `fetch_all_astro_data` (astro_api.py lines 106-128): iterate sign
indices 0-11, then save the cache once iff any sign was updated. -/
def fetch_all_astro_data (cache : Cache) (today ts : String) (env : Nat → SignEnv)
    (fileWrites : Nat) : RefreshResult :=
  let r := runSigns today ts env cache (List.range 12)
  if r.2.any id then ⟨r.1, r.2, fileWrites + 1⟩ else ⟨r.1, r.2, fileWrites⟩

lemma valid_of_entry {c : Cache} {t : String} {n : Nat} {e : CacheEntry}
    (h : cacheFind c (toString n) = some e) (hd : e.date = some t) :
    is_cache_valid c t n = true := by
  simp [is_cache_valid, h, hd]

lemma not_valid_of_other_day {c : Cache} {t d : String} {n : Nat} {e : CacheEntry}
    (h : cacheFind c (toString n) = some e) (hd : e.date = some t) (hne : t ≠ d) :
    is_cache_valid c d n = false := by
  have hb : (t == d) = false := by
    cases hb : t == d
    · rfl
    · exact absurd (eq_of_beq hb) hne
  simp [is_cache_valid, h, hd, hb]

lemma valid_iff (cache : Cache) (today : String) (num : Nat) :
    is_cache_valid cache today num = true ↔
      ∃ e, cacheFind cache (toString num) = some e ∧ e.date = some today := by
  constructor
  · intro hv
    cases h : cacheFind cache (toString num) with
    | none => simp [is_cache_valid, h] at hv
    | some e =>
        cases hd : e.date with
        | none => simp [is_cache_valid, h, hd] at hv
        | some d =>
            simp only [is_cache_valid, h, hd] at hv
            exact ⟨e, rfl, hd.trans (congrArg some (eq_of_beq hv))⟩
  · rintro ⟨e, h, hd⟩
    exact valid_of_entry h hd

lemma cacheFind_insert_self (c : Cache) (k : String) (v : CacheEntry) :
    cacheFind (cacheInsert c k v) k = some v := by
  induction c with
  | nil => simp [cacheInsert, cacheFind]
  | cons p rest ih =>
      obtain ⟨k1, v1⟩ := p
      by_cases h : k1 = k <;> simp [cacheInsert, cacheFind, h, ih]

lemma cacheFind_insert_ne (c : Cache) (k k2 : String) (v : CacheEntry)
    (hne : k ≠ k2) : cacheFind (cacheInsert c k v) k2 = cacheFind c k2 := by
  induction c with
  | nil => simp [cacheInsert, cacheFind, hne]
  | cons p rest ih =>
      obtain ⟨k1, v1⟩ := p
      by_cases h : k1 = k
      · subst h
        simp [cacheInsert, cacheFind, hne]
      · simp [cacheInsert, cacheFind, h, ih]

lemma fetch_eq_of_not_valid {cache : Cache} {today : String} {num : Nat}
    (ts : String) (force : Bool) (upstream : Option Page)
    (hv : is_cache_valid cache today num = false) :
    fetch_astro_data cache today ts num force upstream =
      match upstream with
      | none => (Except.error (), cache)
      | some page =>
          match page.headings with
          | [] => (Except.error (), cache)
          | h :: _ =>
              (Except.ok (mkEntry h page.paragraphs today ts),
               cacheInsert cache (toString num) (mkEntry h page.paragraphs today ts)) := by
  unfold fetch_astro_data
  simp [hv]

lemma fetch_force (cache : Cache) (today ts : String) (num : Nat)
    (upstream : Option Page) :
    fetch_astro_data cache today ts num true upstream =
      match upstream with
      | none => (Except.error (), cache)
      | some page =>
          match page.headings with
          | [] => (Except.error (), cache)
          | h :: _ =>
              (Except.ok (mkEntry h page.paragraphs today ts),
               cacheInsert cache (toString num) (mkEntry h page.paragraphs today ts)) := by
  unfold fetch_astro_data
  simp

lemma fetch_ok_inv {cache : Cache} {today ts : String} {num : Nat} {force : Bool}
    {upstream : Option Page} {e : CacheEntry} {c2 : Cache}
    (h : fetch_astro_data cache today ts num force upstream = (Except.ok e, c2)) :
    (c2 = cache ∧ cacheFind cache (toString num) = some e ∧ e.date = some today) ∨
    (∃ hd hs ps, upstream = some ⟨hd :: hs, ps⟩ ∧ e = mkEntry hd ps today ts ∧
       c2 = cacheInsert cache (toString num) e) := by
  unfold fetch_astro_data at h
  by_cases hc : (!force && is_cache_valid cache today num) = true
  · have hv : is_cache_valid cache today num = true := (Bool.and_eq_true _ _ ▸ hc).2
    obtain ⟨e0, hfind, hdate⟩ := (valid_iff cache today num).1 hv
    simp only [hc, if_true, hfind, Prod.mk.injEq, Except.ok.injEq] at h
    obtain ⟨h1, h2⟩ := h
    subst h1 h2
    exact Or.inl ⟨rfl, hfind, hdate⟩
  · simp only [Bool.not_eq_true] at hc
    simp only [hc, Bool.false_eq_true, if_false] at h
    cases upstream with
    | none => simp at h
    | some page =>
        obtain ⟨hs, ps⟩ := page
        cases hs with
        | nil => simp at h
        | cons hd tl =>
            simp only [Prod.mk.injEq, Except.ok.injEq] at h
            obtain ⟨h1, h2⟩ := h
            subst h1 h2
            exact Or.inr ⟨hd, tl, ps, rfl, rfl, rfl⟩

lemma fetch_err_cache {cache : Cache} {today ts : String} {num : Nat} {force : Bool}
    {upstream : Option Page}
    (h : (fetch_astro_data cache today ts num force upstream).1 = Except.error ()) :
    (fetch_astro_data cache today ts num force upstream).2 = cache := by
  unfold fetch_astro_data at h ⊢
  by_cases hc : (!force && is_cache_valid cache today num) = true
  · simp only [hc, if_true] at h ⊢
    cases hf : cacheFind cache (toString num) <;> simp [hf] at h ⊢
  · simp only [Bool.not_eq_true] at hc
    simp only [hc, Bool.false_eq_true, if_false] at h ⊢
    cases upstream with
    | none => rfl
    | some page =>
        cases hp : page.headings with
        | nil => simp [hp]
        | cons hd tl => simp [hp] at h

/-- C1: for every sign index, `is_cache_valid` is true iff an entry for key
`str(num)` is present with a `'date'` field equal to the current local
date string; after a successful fetch the entry is valid on the fetch day
and invalid on any other day. -/
theorem C1_cache_validity :
    (∀ (cache : Cache) (today : String) (num : Nat),
        is_cache_valid cache today num = true ↔
          ∃ e, cacheFind cache (toString num) = some e ∧ e.date = some today) ∧
    (∀ (cache : Cache) (today ts : String) (num : Nat) (force : Bool)
        (upstream : Option Page) (e : CacheEntry) (c2 : Cache),
        fetch_astro_data cache today ts num force upstream = (Except.ok e, c2) →
        is_cache_valid c2 today num = true ∧
          ∀ d2, d2 ≠ today → is_cache_valid c2 d2 num = false) := by
  constructor
  · exact valid_iff
  · intro cache today ts num force upstream e c2 hfe
    rcases fetch_ok_inv hfe with ⟨hc2, hfind, hdate⟩ | ⟨hd, hs, ps, _, he, hc2⟩
    · subst hc2
      refine ⟨valid_of_entry hfind hdate, fun d2 hne => ?_⟩
      exact not_valid_of_other_day hfind hdate (fun ht => hne ht.symm)
    · subst hc2
      have hfind := cacheFind_insert_self cache (toString num) e
      have hdate : e.date = some today := by rw [he]; rfl
      refine ⟨valid_of_entry hfind hdate, fun d2 hne => ?_⟩
      exact not_valid_of_other_day hfind hdate (fun ht => hne ht.symm)

/-- C1 witness: concrete instance of both conjuncts. -/
theorem C1_cache_validity_witness :
    is_cache_valid [("0", ⟨"t", some ["a"], "t<br>a<br>", some "2024-01-02", "T"⟩)]
        "2024-01-02" 0 = true ∧
    is_cache_valid
        (fetch_astro_data [] "2024-01-02" "T" 0 true
          (some ⟨["t"], ["a"]⟩)).2 "2024-01-03" 0 = false := by
  constructor
  · exact (C1_cache_validity.1 _ _ _).2
      ⟨⟨"t", some ["a"], "t<br>a<br>", some "2024-01-02", "T"⟩, by rfl, rfl⟩
  · exact (C1_cache_validity.2 [] "2024-01-02" "T" 0 true (some ⟨["t"], ["a"]⟩)
      (mkEntry "t" ["a"] "2024-01-02" "T")
      [("0", mkEntry "t" ["a"] "2024-01-02" "T")] (by rfl)).2 "2024-01-03" (by decide)

/-- C5: `needs_update` never modifies the cache: whatever it returns, the
cache it leaves behind is the cache it was given. -/
theorem C5_needs_update_frame (cache : Cache) (today : String) (num : Nat)
    (probe : Option (List String)) :
    (needs_update cache today num probe).2 = cache := by
  unfold needs_update
  repeat' split
  all_goals rfl

/-- C3: `needs_update` is true whenever no valid entry exists; with a valid
cached entry carrying an `items` list, a successful comparison fetch yields
true exactly when the fresh items differ from the cached ones. -/
theorem C3_needs_update :
    (∀ (cache : Cache) (today : String) (num : Nat) (probe : Option (List String)),
        is_cache_valid cache today num = false →
        (needs_update cache today num probe).1 = true) ∧
    (∀ (cache : Cache) (today : String) (num : Nat) (current : List String)
        (e : CacheEntry) (items : List String),
        cacheFind cache (toString num) = some e → e.date = some today →
        e.items = some items →
        ((needs_update cache today num (some current)).1 = true ↔ items ≠ current)) := by
  constructor
  · intro cache today num probe hv
    unfold needs_update
    simp [hv]
  · intro cache today num current e items hfind hdate hitems
    have hv := valid_of_entry hfind hdate
    have hck : containsKey cache (toString num) = true := by
      simp [containsKey, hfind]
    unfold needs_update
    by_cases h : items = current <;> simp [hv, hck, hfind, hitems, h]

/-- C3 witness: an absent sign needs an update; a cached sign whose items
match the re-fetch does not, and one whose items differ does. -/
theorem C3_needs_update_witness :
    (needs_update [] "2024-01-02" 0 none).1 = true ∧
    (needs_update [("0", ⟨"t", some ["a"], "t<br>a<br>", some "2024-01-02", "T"⟩)]
        "2024-01-02" 0 (some ["b"])).1 = true ∧
    ¬ (needs_update [("0", ⟨"t", some ["a"], "t<br>a<br>", some "2024-01-02", "T"⟩)]
        "2024-01-02" 0 (some ["a"])).1 = true := by
  refine ⟨C3_needs_update.1 [] "2024-01-02" 0 none (by decide), ?_, ?_⟩
  · exact (C3_needs_update.2 [("0", ⟨"t", some ["a"], "t<br>a<br>", some "2024-01-02", "T"⟩)]
      "2024-01-02" 0 ["b"] ⟨"t", some ["a"], "t<br>a<br>", some "2024-01-02", "T"⟩ ["a"]
      (by rfl) rfl rfl).2 (by decide)
  · intro h
    exact absurd ((C3_needs_update.2 [("0", ⟨"t", some ["a"], "t<br>a<br>", some "2024-01-02", "T"⟩)]
      "2024-01-02" 0 ["a"] ⟨"t", some ["a"], "t<br>a<br>", some "2024-01-02", "T"⟩ ["a"]
      (by rfl) rfl rfl).1 h) (by decide)

/-- C10: if `fetch_astro_data` raises, the cache map is unchanged — every
key still maps to what it mapped to before, and no entry is created; a
cache differing from the input can only come out of a successful fetch. -/
theorem C10_fetch_atomic (cache : Cache) (today ts : String) (num : Nat)
    (force : Bool) (upstream : Option Page) :
    ((fetch_astro_data cache today ts num force upstream).1 = Except.error () →
      (fetch_astro_data cache today ts num force upstream).2 = cache ∧
      ∀ k, cacheFind (fetch_astro_data cache today ts num force upstream).2 k =
        cacheFind cache k) ∧
    ((fetch_astro_data cache today ts num force upstream).2 ≠ cache →
      ∃ e, (fetch_astro_data cache today ts num force upstream).1 = Except.ok e) := by
  constructor
  · intro h
    have h2 := fetch_err_cache h
    exact ⟨h2, fun k => by rw [h2]⟩
  · intro hne
    cases hf : (fetch_astro_data cache today ts num force upstream).1 with
    | ok e => exact ⟨e, rfl⟩
    | error u => cases u; exact absurd (fetch_err_cache hf) hne

/-- C10 witness: a failing fetch with no upstream response leaves a
one-entry cache exactly as it was. -/
theorem C10_fetch_atomic_witness :
    (fetch_astro_data [("3", ⟨"t", some ["a"], "t<br>a<br>", some "2024-01-01", "T"⟩)]
        "2024-01-02" "T2" 3 false none).2 =
      [("3", ⟨"t", some ["a"], "t<br>a<br>", some "2024-01-01", "T"⟩)] :=
  (C10_fetch_atomic [("3", ⟨"t", some ["a"], "t<br>a<br>", some "2024-01-01", "T"⟩)]
    "2024-01-02" "T2" 3 false none).1 (by rfl) |>.1

/-- C4 counterexample: with title `"t"` and items `["a", "b"]` the code
stores `"t<br>a<br><br>b<br>"` — two `<br>` between the consecutive items
`a` and `b` — not `"t<br>a<br>b<br>"` with exactly one `<br>` between
consecutive pieces as the claim states. -/
theorem C4_counterexample :
    (fetch_astro_data [] "2024-01-02" "T" 0 true (some ⟨["t"], ["a", "b"]⟩)).1 =
      Except.ok ⟨"t", some ["a", "b"], "t<br>a<br><br>b<br>", some "2024-01-02", "T"⟩ ∧
    "t<br>a<br><br>b<br>" ≠ "t<br>a<br>b<br>" := by
  exact ⟨rfl, by decide⟩

lemma strJoin_map_suffix (sep : String) : ∀ (x : String) (l : List String),
    strJoin sep ((x :: l).map (fun s => s ++ sep)) =
      strJoin (sep ++ sep) (x :: l) ++ sep
  | _, [] => by simp [strJoin]
  | x, y :: rest => by
      have ih := strJoin_map_suffix sep y rest
      simp only [List.map_cons, strJoin] at ih ⊢
      rw [ih]
      simp [String.append_assoc]

/-- C4 amended: on every successful forced fetch the stored `html` equals
the title, then one `<br>`, then the items joined by `<br><br>` (two
line-break markers between consecutive items) with one trailing `<br>`
when at least one item exists; with no items it is the title plus one
`<br>`. -/
theorem C4_amended_html (cache : Cache) (today ts : String) (num : Nat)
    (e : CacheEntry) (c2 : Cache) (hd : String) (hs ps : List String)
    (hfe : fetch_astro_data cache today ts num true (some ⟨hd :: hs, ps⟩) =
      (Except.ok e, c2)) :
    (ps = [] → e.html = hd ++ "<br>") ∧
    (ps ≠ [] → e.html = hd ++ "<br>" ++ strJoin "<br><br>" ps ++ "<br>") := by
  rw [fetch_force] at hfe
  simp only [Prod.mk.injEq, Except.ok.injEq] at hfe
  obtain ⟨h1, h2⟩ := hfe
  subst h1
  constructor
  · rintro rfl
    simp [mkEntry, buildHtml, strJoin]
  · intro hne
    obtain ⟨x, l, rfl⟩ : ∃ x l, ps = x :: l := by
      cases ps with
      | nil => exact absurd rfl hne
      | cons x l => exact ⟨x, l, rfl⟩
    have hj := strJoin_map_suffix "<br>" x l
    have hbr : ("<br>" ++ "<br>" : String) = "<br><br>" := rfl
    rw [hbr] at hj
    simp only [mkEntry, buildHtml]
    rw [hj]
    simp [String.append_assoc]

/-- C4 amended witness: concrete html for title `t` and items `[a, b]`. -/
theorem C4_amended_html_witness :
    (mkEntry "t" ["a", "b"] "2024-01-02" "T").html =
      "t" ++ "<br>" ++ strJoin "<br><br>" ["a", "b"] ++ "<br>" :=
  (C4_amended_html [] "2024-01-02" "T" 0 (mkEntry "t" ["a", "b"] "2024-01-02" "T")
    [("0", mkEntry "t" ["a", "b"] "2024-01-02" "T")] "t" [] ["a", "b"] (by rfl)).2
    (by decide)

lemma applyConvert_false (conv : String → String) (flag : Bool) (text : String) :
    applyConvert false conv flag text = text := by
  simp [applyConvert, convert_to_simplified]

lemma buildJson_flag_false (conv : String → String) (flag : Bool) (e : CacheEntry) :
    buildJson false conv flag e = buildJson false conv false e := by
  simp [buildJson, Bool.and_false]

lemma buildJson_ne_400 (opencc : Bool) (conv : String → String) (flag : Bool)
    (e : CacheEntry) : buildJson opencc conv flag e ≠ JsonResp.err 400 := by
  unfold buildJson
  repeat' split
  all_goals simp

/-- C8: both read endpoints answer 400 — with no upstream call and no
cache mutation — on a missing/non-integer sign number or one outside
[0, 11]; the JSON endpoint rejects -1 and 12 and accepts 0 and 11. -/
theorem C8_validation (opencc : Bool) (conv : String → String) (cache : Cache)
    (today ts cp : String) (upstream : Option Page) :
    astro_api opencc conv cache today ts none cp upstream =
      ⟨Response.err 400, cache, false, false⟩ ∧
    (∀ num : Int, num < 0 ∨ 11 < num →
      astro_api opencc conv cache today ts (some num) cp upstream =
        ⟨Response.err 400, cache, false, false⟩) ∧
    (∀ num : Int, num < 0 ∨ 11 < num →
      astro_json_api opencc conv cache today ts num cp upstream =
        ⟨JsonResp.err 400, cache, false, false⟩) ∧
    astro_json_api opencc conv cache today ts (-1) cp upstream =
      ⟨JsonResp.err 400, cache, false, false⟩ ∧
    astro_json_api opencc conv cache today ts 12 cp upstream =
      ⟨JsonResp.err 400, cache, false, false⟩ ∧
    (astro_json_api opencc conv cache today ts 0 cp upstream).resp ≠
      JsonResp.err 400 ∧
    (astro_json_api opencc conv cache today ts 11 cp upstream).resp ≠
      JsonResp.err 400 := by
  have hjson : ∀ num : Int, ¬(num < 0 ∨ 11 < num) →
      (astro_json_api opencc conv cache today ts num cp upstream).resp ≠
        JsonResp.err 400 := by
    intro num hrange
    unfold astro_json_api
    rw [if_neg hrange]
    by_cases hv : is_cache_valid cache today num.toNat = true
    · rw [if_pos hv]
      exact buildJson_ne_400 _ _ _ _
    · rw [if_neg hv]
      cases hfe : fetch_astro_data cache today ts num.toNat false upstream with
      | mk r cache2 =>
          cases r with
          | ok data => exact buildJson_ne_400 _ _ _ _
          | error u =>
              cases hfind : cacheFind cache2 (toString num.toNat) with
              | none => simp [hfind]
              | some e => simp [hfind, buildJson_ne_400]
  refine ⟨rfl, ?_, ?_, ?_, ?_, ?_, ?_⟩
  · intro num h
    simp only [astro_api]
    rw [if_pos (by omega : num > 11 ∨ num < 0)]
  · intro num h
    unfold astro_json_api
    rw [if_pos h]
  · exact (by rfl)
  · exact (by rfl)
  · exact hjson 0 (by omega)
  · exact hjson 11 (by omega)

/-- C8 witness: concrete instances of the hypothesis-guarded conjuncts. -/
theorem C8_validation_witness :
    astro_api false id [] "2024-01-02" "T" (some 12) "" none =
      ⟨Response.err 400, [], false, false⟩ ∧
    astro_json_api false id [] "2024-01-02" "T" (-1) "" none =
      ⟨JsonResp.err 400, [], false, false⟩ :=
  ⟨(C8_validation false id [] "2024-01-02" "T" "" none).2.1 12 (by omega),
   (C8_validation false id [] "2024-01-02" "T" "" none).2.2.1 (-1) (by omega)⟩

/-- C9: with the conversion collaborator unavailable the convert flag has
no effect at all on either endpoint's result, and the flag is truthy for
exactly the case-insensitive values 1, true, yes, y. -/
theorem C9_convert_flag (conv : String → String) (cache : Cache) (today ts : String)
    (numParam : Option Int) (num : Int) (cp cp2 : String) (upstream : Option Page) :
    astro_api false conv cache today ts numParam cp upstream =
      astro_api false conv cache today ts numParam cp2 upstream ∧
    astro_json_api false conv cache today ts num cp upstream =
      astro_json_api false conv cache today ts num cp2 upstream ∧
    (∀ s : String, isTruthy s = true ↔
      (s.toLower = "1" ∨ s.toLower = "true" ∨ s.toLower = "yes" ∨ s.toLower = "y")) := by
  refine ⟨?_, ?_, ?_⟩
  · cases numParam with
    | none => rfl
    | some m =>
        simp only [astro_api]
        by_cases h1 : m > 11 ∨ m < 0
        · rw [if_pos h1, if_pos h1]
        · rw [if_neg h1, if_neg h1]
          by_cases hv : is_cache_valid cache today m.toNat = true
          · rw [if_pos hv, if_pos hv]
            simp [applyConvert_false]
          · rw [if_neg hv, if_neg hv]
            cases hfe : fetch_astro_data cache today ts m.toNat false upstream with
            | mk r cache2 =>
                cases r with
                | ok data => simp [applyConvert_false]
                | error u =>
                    by_cases hck : containsKey cache2 (toString m.toNat) = true
                    · simp [hck, applyConvert_false]
                    · simp [hck]
  · unfold astro_json_api
    by_cases h1 : num < 0 ∨ 11 < num
    · rw [if_pos h1, if_pos h1]
    · rw [if_neg h1, if_neg h1]
      by_cases hv : is_cache_valid cache today num.toNat = true
      · rw [if_pos hv, if_pos hv]
        rw [buildJson_flag_false conv (isTruthy cp), buildJson_flag_false conv (isTruthy cp2)]
      · rw [if_neg hv, if_neg hv]
        cases hfe : fetch_astro_data cache today ts num.toNat false upstream with
        | mk r cache2 =>
            cases r with
            | ok data =>
                simp only []
                rw [buildJson_flag_false conv (isTruthy cp),
                  buildJson_flag_false conv (isTruthy cp2)]
            | error u =>
                cases hfind : cacheFind cache2 (toString num.toNat) with
                | none => simp [hfind]
                | some e =>
                    simp only [hfind]
                    rw [buildJson_flag_false conv (isTruthy cp),
                      buildJson_flag_false conv (isTruthy cp2)]
  · intro s
    simp [isTruthy]

lemma int_toNat_ofNat (n : Nat) : ((n : Int)).toNat = n := rfl

lemma fetch_err_pair {cache : Cache} {today ts : String} {num : Nat} {force : Bool}
    {upstream : Option Page}
    (h : (fetch_astro_data cache today ts num force upstream).1 = Except.error ()) :
    fetch_astro_data cache today ts num force upstream = (Except.error (), cache) := by
  have h2 := fetch_err_cache h
  cases hfp : fetch_astro_data cache today ts num force upstream with
  | mk r c =>
      rw [hfp] at h h2
      have hr : r = Except.error () := h
      have hc : c = cache := h2
      rw [hr, hc]

/-- C2: for every sign in range, both read endpoints serve the cached
entry without fetching when the cache is valid; otherwise they fetch,
write the entry into the cache, persist, and serve the fresh data; on a
failed fetch they fall back to any existing (possibly stale) entry; and
with no entry at all they answer 500.  The last conjunct spells out that
the JSON payload built from an entry consists of that entry's fields. -/
theorem C2_read_endpoints (opencc : Bool) (conv : String → String) (cache : Cache)
    (today ts : String) (n : Nat) (hn : n < 12) (cp : String)
    (upstream : Option Page) :
    (is_cache_valid cache today n = true →
      astro_api opencc conv cache today ts (some ((n : Int))) cp upstream =
        ⟨Response.ok (applyConvert opencc conv (isTruthy cp)
            (cachedHtml cache (toString n))), cache, false, false⟩ ∧
      astro_json_api opencc conv cache today ts ((n : Int)) cp upstream =
        ⟨buildJson opencc conv (isTruthy cp) (cachedEntry cache (toString n)),
          cache, false, false⟩) ∧
    (∀ data c2, is_cache_valid cache today n = false →
      fetch_astro_data cache today ts n false upstream = (Except.ok data, c2) →
      cacheFind c2 (toString n) = some data ∧
      astro_api opencc conv cache today ts (some ((n : Int))) cp upstream =
        ⟨Response.ok (applyConvert opencc conv (isTruthy cp) data.html),
          c2, true, true⟩ ∧
      astro_json_api opencc conv cache today ts ((n : Int)) cp upstream =
        ⟨buildJson opencc conv (isTruthy cp) data, c2, true, true⟩) ∧
    (∀ e, is_cache_valid cache today n = false →
      (fetch_astro_data cache today ts n false upstream).1 = Except.error () →
      cacheFind cache (toString n) = some e →
      astro_api opencc conv cache today ts (some ((n : Int))) cp upstream =
        ⟨Response.ok (applyConvert opencc conv (isTruthy cp) e.html),
          cache, false, true⟩ ∧
      astro_json_api opencc conv cache today ts ((n : Int)) cp upstream =
        ⟨buildJson opencc conv (isTruthy cp) e, cache, false, true⟩) ∧
    (is_cache_valid cache today n = false →
      (fetch_astro_data cache today ts n false upstream).1 = Except.error () →
      cacheFind cache (toString n) = none →
      astro_api opencc conv cache today ts (some ((n : Int))) cp upstream =
        ⟨Response.err 500, cache, false, true⟩ ∧
      astro_json_api opencc conv cache today ts ((n : Int)) cp upstream =
        ⟨JsonResp.err 500, cache, false, true⟩) ∧
    (∀ (e : CacheEntry) (its : List String) (d : String) (flag : Bool),
      e.items = some its → e.date = some d →
      buildJson opencc conv flag e =
        (if flag && opencc then JsonResp.ok ⟨conv e.title, its.map conv, d, true⟩
         else JsonResp.ok ⟨e.title, its, d, false⟩)) := by
  have hr1 : ¬((n : Int) > 11 ∨ (n : Int) < 0) := by omega
  have hr2 : ¬((n : Int) < 0 ∨ 11 < (n : Int)) := by omega
  refine ⟨?_, ?_, ?_, ?_, ?_⟩
  · intro hv
    constructor
    · simp only [astro_api, int_toNat_ofNat]
      rw [if_neg hr1, if_pos hv]
    · simp only [astro_json_api, int_toNat_ofNat]
      rw [if_neg hr2, if_pos hv]
  · intro data c2 hv hfe
    have hfind2 : cacheFind c2 (toString n) = some data := by
      rcases fetch_ok_inv hfe with ⟨hc2, hfind, hdate⟩ | ⟨hd, hs, ps, _, he, hc2⟩
      · exact absurd (valid_of_entry hfind hdate) (by simp [hv])
      · subst hc2
        exact cacheFind_insert_self cache (toString n) data
    refine ⟨hfind2, ?_, ?_⟩
    · simp only [astro_api, int_toNat_ofNat]
      rw [if_neg hr1, if_neg (by simp [hv]), hfe]
    · simp only [astro_json_api, int_toNat_ofNat]
      rw [if_neg hr2, if_neg (by simp [hv]), hfe]
  · intro e hv herr hfind
    have hpair := fetch_err_pair herr
    constructor
    · simp only [astro_api, int_toNat_ofNat]
      rw [if_neg hr1, if_neg (by simp [hv]), hpair]
      simp [containsKey, cachedHtml, hfind]
    · simp only [astro_json_api, int_toNat_ofNat]
      rw [if_neg hr2, if_neg (by simp [hv]), hpair]
      simp [hfind]
  · intro hv herr hfind
    have hpair := fetch_err_pair herr
    constructor
    · simp only [astro_api, int_toNat_ofNat]
      rw [if_neg hr1, if_neg (by simp [hv]), hpair]
      simp [containsKey, hfind]
    · simp only [astro_json_api, int_toNat_ofNat]
      rw [if_neg hr2, if_neg (by simp [hv]), hpair]
      simp [hfind]
  · intro e its d flag hitems hdate
    by_cases hfo : (flag && opencc) = true
    · have ho : opencc = true := (Bool.and_eq_true _ _ ▸ hfo).2
      subst ho
      simp [buildJson, hitems, hdate, hfo, convert_to_simplified]
    · simp [buildJson, hitems, hdate, hfo, convert_to_simplified]

/-- C2 witness: a valid cache is served directly; a failed fetch with an
empty cache answers 500. -/
theorem C2_read_endpoints_witness :
    astro_api false id [("0", ⟨"t", some ["a"], "t<br>a<br>", some "2024-01-02", "T"⟩)]
        "2024-01-02" "T" (some (Int.ofNat 0)) "" none =
      ⟨Response.ok (applyConvert false id (isTruthy "")
          (cachedHtml [("0", ⟨"t", some ["a"], "t<br>a<br>", some "2024-01-02", "T"⟩)]
            (toString 0))),
        [("0", ⟨"t", some ["a"], "t<br>a<br>", some "2024-01-02", "T"⟩)], false, false⟩ ∧
    astro_api false id [] "2024-01-02" "T" (some (Int.ofNat 5)) "" none =
      ⟨Response.err 500, [], false, true⟩ :=
  ⟨((C2_read_endpoints false id [("0", ⟨"t", some ["a"], "t<br>a<br>", some "2024-01-02", "T"⟩)]
      "2024-01-02" "T" 0 (by omega) "" none).1 (by decide)).1,
   ((C2_read_endpoints false id [] "2024-01-02" "T" 5 (by omega) "" none).2.2.2.1
      (by decide) (by rfl) (by rfl)).1⟩

lemma runSigns_length (today ts : String) (env : Nat → SignEnv) (l : List Nat) :
    ∀ c : Cache, (runSigns today ts env c l).2.length = l.length := by
  induction l with
  | nil => intro c; rfl
  | cons n rest ih => intro c; simp [runSigns, ih]

lemma fetch_all_flags (cache : Cache) (today ts : String) (env : Nat → SignEnv)
    (w : Nat) :
    (fetch_all_astro_data cache today ts env w).flags =
      (runSigns today ts env cache (List.range 12)).2 := by
  simp only [fetch_all_astro_data]
  split <;> rfl

lemma fetch_all_writes (cache : Cache) (today ts : String) (env : Nat → SignEnv)
    (w : Nat) :
    (fetch_all_astro_data cache today ts env w).fileWrites =
      (if (runSigns today ts env cache (List.range 12)).2.any id then w + 1 else w) := by
  simp only [fetch_all_astro_data]
  split <;> rfl

/-- C6: a sign whose refresh raises contributes a false flag and leaves
the cache untouched, and every remaining sign is processed exactly as it
would have been — the loop is not aborted by the failure. -/
theorem C6_error_isolation (cache : Cache) (today ts : String) (env : Nat → SignEnv)
    (n : Nat) (rest : List Nat)
    (hneed : (needs_update cache today n (env n).probe).1 = true)
    (herr : (fetch_astro_data cache today ts n true (env n).fetch).1 = Except.error ()) :
    runSigns today ts env cache (n :: rest) =
      ((runSigns today ts env cache rest).1,
        false :: (runSigns today ts env cache rest).2) := by
  have hpair := fetch_err_pair herr
  simp [runSigns, refreshSign, hneed, hpair]

/-- C6 witness: sign 0 fails (no upstream), sign 1 is still processed. -/
theorem C6_error_isolation_witness :
    runSigns "2024-01-02" "T" (fun _ => ⟨none, none⟩) [] [0, 1] =
      ((runSigns "2024-01-02" "T" (fun _ => ⟨none, none⟩) [] [1]).1,
        false :: (runSigns "2024-01-02" "T" (fun _ => ⟨none, none⟩) [] [1]).2) :=
  C6_error_isolation [] "2024-01-02" "T" (fun _ => ⟨none, none⟩) 0 [1]
    (by rfl) (by rfl)

/-- C7: bulk refresh walks the sign indices 0 through 11 (twelve flags,
one per sign of `List.range 12`), and writes the cache file exactly once
when at least one sign was updated and not at all otherwise; a sign
counts as updated exactly when `needs_update` answered true and its
forced fetch succeeded. -/
theorem C7_persist_once (cache : Cache) (today ts : String) (env : Nat → SignEnv)
    (w : Nat) :
    (fetch_all_astro_data cache today ts env w).flags.length = 12 ∧
    (fetch_all_astro_data cache today ts env w).flags =
      (runSigns today ts env cache (List.range 12)).2 ∧
    (fetch_all_astro_data cache today ts env w).fileWrites =
      (if (fetch_all_astro_data cache today ts env w).flags.any id then w + 1 else w) ∧
    (∀ (c : Cache) (e : SignEnv) (n : Nat),
      (refreshSign c today ts e n).2 = true ↔
        ((needs_update c today n e.probe).1 = true ∧
          ∃ d, (fetch_astro_data c today ts n true e.fetch).1 = Except.ok d)) := by
  refine ⟨?_, fetch_all_flags cache today ts env w, ?_, ?_⟩
  · rw [fetch_all_flags, runSigns_length]
    exact List.length_range 12
  · rw [fetch_all_flags, fetch_all_writes]
  · intro c e n
    unfold refreshSign
    by_cases hne : (needs_update c today n e.probe).1 = true
    · rw [if_pos hne]
      cases hf : fetch_astro_data c today ts n true e.fetch with
      | mk r c2 =>
          cases r with
          | ok d => simp [hne, hf]
          | error u => simp [hne, hf]
    · rw [if_neg hne]
      simp [hne]
